import Mathlib

/-!
# Verification of the pofh password-recovery backend core

A shallow embedding, in Lean 4, of the core logic of the `pofh`
(cerebrum-password-webapp-backend) service:

* the exponential rate limiter (`pofh/api/limits.py`),
* the SMS nonce store and verification endpoint (`pofh/api/sms.py`),
* the JWT capability token codec (`pofh/auth/token.py`) and the request
  gating decorators (`pofh/auth/__init__.py`),
* the Cerebrum eligibility / contact resolution client
  (`pofh/idm/cerebrum_api_v1.py`).

Pure functions of the Python source are translated into Lean functions;
the Redis store is modelled as an association list; wall-clock instants
are integers (seconds, or days where the source computes with
`timedelta(days=...)`); Python `None` becomes `Option`.
-/

namespace Pofh

/-! ## String helpers

Python's `str.split(sep, 1)` (split on the first separator only) and
`str.split(sep)` (split on every separator), modelled structurally on the
character list of a string, and the `x or None` idiom that maps an empty
string to `None`.
-/

/-- Split a character list at the first occurrence of `sep`.
Returns the prefix before the separator, and `some` suffix when the
separator occurs (Python `value.split(sep, 1)` yielding one or two parts). -/
def splitFirst (sep : Char) : List Char → List Char × Option (List Char)
  | [] => ([], none)
  | c :: rest =>
    if c = sep then ([], some rest)
    else
      let r := splitFirst sep rest
      (c :: r.1, r.2)

/-- Split a character list at every occurrence of `sep`
(Python `value.split(sep)`; always at least one part). -/
def splitAll (sep : Char) : List Char → List (List Char)
  | [] => [[]]
  | c :: rest =>
    if c = sep then [] :: splitAll sep rest
    else
      match splitAll sep rest with
      | [] => [[c]]
      | g :: gs => (c :: g) :: gs

/-- Python `s or None`: an empty string is falsy and becomes `None`. -/
def orNone (s : String) : Option String :=
  if s = "" then none else some s

/-- Python membership test `opt in stringList` for an optional string:
`None` is never an element of a list of strings. -/
def optInList (t : Option String) (l : List String) : Bool :=
  match t with
  | some s => l.contains s
  | none => false

/-- Python truthiness of an optional string: `None` and `""` are falsy. -/
def truthyOpt (t : Option String) : Bool :=
  match t with
  | some s => s ≠ ""
  | none => false

/-! ## Ephemeral key-value store

The Redis store used by the nonce subsystem, modelled as an association
list from key to value.  TTL expiry is modelled as absence of the key. -/

/-- The ephemeral key-value store (Redis), as an association list. -/
abbrev Store := List (String × String)

/-- `store.get(name)`: the value at a key, if present. -/
def storeGet (store : Store) (name : String) : Option String :=
  match store with
  | [] => none
  | (k, v) :: rest => if k = name then some v else storeGet rest name

/-- `store.setex(name, duration, value)`: bind a key to a value
(the TTL itself is not tracked; expiry is modelled as deletion). -/
def storeSetex (store : Store) (name value : String) : Store :=
  (name, value) :: store.filter (fun p => p.1 ≠ name)

/-- `store.delete(name)`: remove a key. -/
def storeDelete (store : Store) (name : String) : Store :=
  store.filter (fun p => p.1 ≠ name)

/-! ## Rate limiter (`pofh/api/limits.py`, `exponential_ratelimit`)

```
state = store.get(scope)
ok = False
if not state:
    state = 1
    ok = True
store.incr(scope)
store.expire(scope, int(state)**2)
if ok: return func(...)
else: raise RateLimitError()
```

The counter at the scope key is `Option Nat` (`none` = key absent or
expired; `store.get` returns the string form of the counter, which is
falsy only when the key is missing).  One call returns whether the
wrapped function ran (`True`) or `RateLimitError` (HTTP 429) was raised,
together with the new counter value (`store.incr` sets an absent key
to 1) and the TTL in seconds installed by `store.expire`.  Note that the
TTL is computed from `state`, the value read *before* the increment. -/

def exponential_ratelimit_call (cur : Option Nat) : Bool × Nat × Nat :=
  let ok := cur.isNone
  let state := cur.getD 1
  let newCount := cur.getD 0 + 1
  let ttl := state ^ 2
  (ok, newCount, ttl)

/-- Counter after `n` consecutive calls for one `(action, client)` scope,
starting from an absent key, with every call landing before the previous
TTL lapses. -/
def ratelimitCounterAfter : Nat → Option Nat
  | 0 => none
  | n + 1 => some (exponential_ratelimit_call (ratelimitCounterAfter n)).2.1

/-! ## Nonce store and verification (`pofh/api/sms.py`) -/

/-- `NONCE_PREFIX` -/
def NONCE_PREFIX : String := "sms-nonce:"

/-- `save_nonce(identifier, nonce, duration)`:
`store.setex(NONCE_PREFIX + identifier, duration, nonce)`. -/
def save_nonce (store : Store) (identifier nonce : String) : Store :=
  storeSetex store (NONCE_PREFIX ++ identifier) nonce

/-- `check_nonce(identifier, nonce)`:
`nonce and store.get(name) == nonce` (an empty candidate is falsy and
never matches; a missing or expired key never matches). -/
def check_nonce (store : Store) (identifier nonce : String) : Bool :=
  nonce ≠ "" && storeGet store (NONCE_PREFIX ++ identifier) == some nonce

/-- `clear_nonce(identifier)`: `store.delete(NONCE_PREFIX + identifier)`. -/
def clear_nonce (store : Store) (identifier : String) : Store :=
  storeDelete store (NONCE_PREFIX ++ identifier)

/-- Outcome of the `/sms/verify` handler body. -/
inductive VerifyOutcome where
  /-- `raise InvalidNonce()` (HTTP 401, `invalid-nonce`). -/
  | invalidNonce
  /-- `username, mobile = identifier.split(':')` raised `ValueError`
  (the compound identity did not have exactly two parts). -/
  | valueError
  /-- A password token for `username` was minted and returned. -/
  | success (username mobile : String)
  deriving DecidableEq, Repr

/-- `verify_code(data)` (`pofh/api/sms.py`, the body of `POST /sms/verify`
after the decorators have admitted the request): checks the submitted
nonce against the identity of the presented `allow-verify-nonce` token,
and on success mints an `allow-set-password` token.  Returns the outcome
together with the store as left behind by the handler. -/
def verify_code (store : Store) (identity nonce : String) :
    VerifyOutcome × Store :=
  if ¬ check_nonce store identity nonce then
    (.invalidNonce, store)
  else
    match (splitAll ':' identity.toList).map (fun l => String.mk l) with
    | [username, mobile] => (.success username mobile, store)
    | _ => (.valueError, store)

/-! ## Cerebrum eligibility and contact resolution
(`pofh/idm/cerebrum_api_v1.py`)

Wall-clock time is an integer number of days (`datetime.datetime.now()`
is the parameter `now`; `datetime.timedelta(days=d)` is the integer `d`;
`dateutil.parser.parse` of a stored date string is the stored integer).
The remote data fetched (and memoized) by the client for one person /
account — contacts, affiliations, person info, traits, quarantines,
group memberships — is passed in as explicit records. -/

/-- `ContactType` (a configured `CEREBRUM_CONTACT_SETTINGS` entry):
source system, contact type, and optional minimum age in days. -/
structure ContactType where
  system : String
  ctype : String
  delay : Option Int
  deriving DecidableEq, Repr

/-- A contact record from `GET /persons/{pid}/contacts`. -/
structure Contact where
  source_system : String
  ctype : String
  value : String
  last_modified : Option Int
  deriving DecidableEq, Repr

/-- An affiliation record from
`GET /persons/{pid}/affiliations?include_deleted=true`. -/
structure Affiliation where
  source_system : String
  deleted_date : Option Int
  deriving DecidableEq, Repr

/-- An account trait record from `GET /accounts/{username}/traits`
(`number` defaults to `0` when the field is missing). -/
structure Trait where
  trait : String
  date : Option Int
  number : Int
  deriving DecidableEq, Repr

/-- A quarantine record from `GET /accounts/{username}/quarantines`
(`qtype` is the record's `type` field, absent or a string). -/
structure Quarantine where
  qtype : Option String
  deriving DecidableEq, Repr

/-- The configured state of a `CerebrumClient` (set by `from_config`). -/
structure CerebrumClient where
  contact_types : List ContactType
  fresh_days : Int
  aff_grace_days : Int
  source_system_priorities : List String
  accepted_quarantines : List String
  reserved_groups : List String
  deriving DecidableEq, Repr

/-- `ContactType.__eq__` against a contact dict: the configured system
must equal the record's `source_system` and the configured type the
record's `type` (the delay plays no part in matching). -/
def contactMatches (item : Contact) (x : ContactType) : Bool :=
  x.system == item.source_system && x.ctype == item.ctype

/-- `CerebrumClient.is_valid_contact(item, fresh_entity)`:

```
valid_type = [x for x in self._contact_types if item == x]
if not valid_type: return False
delay = valid_type.pop().delay
if not delay or fresh_entity: return True
last_modified = item.get('last_modified')
if last_modified is None: return True
last_modified = dateutil.parser.parse(last_modified)
cutoff = datetime.datetime.now() - datetime.timedelta(days=delay)
return last_modified < cutoff
```

`valid_type.pop()` pops the *last* matching configured entry; Python
`not delay` is true for both a missing delay and a delay of `0`. -/
def is_valid_contact (client : CerebrumClient) (now : Int) (item : Contact)
    (fresh_entity : Bool) : Bool :=
  match (client.contact_types.filter (contactMatches item)).getLast? with
  | none => false
  | some ct =>
    match ct.delay with
    | none => true
    | some delay =>
      if delay == 0 || fresh_entity then true
      else
        match item.last_modified with
        | none => true
        | some last_modified => last_modified < now - delay

/-- `CerebrumClient._affiliation_is_valid(aff)`: not deleted, or the
deletion date is after `now - aff_grace_days`. -/
def affiliation_is_valid (client : CerebrumClient) (now : Int)
    (aff : Affiliation) : Bool :=
  match aff.deleted_date with
  | none => true
  | some deleted_date => now - client.aff_grace_days < deleted_date

/-- `CerebrumClient._person_has_affiliation_from(person_id, source_system)`:
some fetched affiliation is from `source_system` and is valid. -/
def person_has_affiliation_from (client : CerebrumClient) (now : Int)
    (affiliations : List Affiliation) (source_system : String) : Bool :=
  affiliations.any (fun x =>
    source_system == x.source_system && affiliation_is_valid client now x)

/-- `CerebrumClient._person_is_fresh(person_id)`: the person's
`created_at` exists and is after `now - fresh_days`. -/
def person_is_fresh (client : CerebrumClient) (now : Int)
    (created_at : Option Int) : Bool :=
  match created_at with
  | none => false
  | some created_at => now - client.fresh_days < created_at

/-- `CerebrumClient._account_is_fresh(username)`: among traits named
`new_student` or `sms_welcome` that carry a date, the `for` loop returns
unconditionally on its *first* iteration, so only the first such trait
is consulted. -/
def account_is_fresh (client : CerebrumClient) (now : Int)
    (traits : List Trait) : Bool :=
  match traits.filter (fun x =>
      (x.trait == "new_student" || x.trait == "sms_welcome")
        && x.date.isSome) with
  | [] => false
  | t :: _ =>
    match t.date with
    | none => false
    | some date => now - client.fresh_days < date

/-- The per-system contact extraction of `get_mobile_numbers` when
source-system priorities are configured: the values of the contacts from
`source_system` that are valid. -/
def contactsFrom (client : CerebrumClient) (now : Int)
    (contacts : List Contact) (fresh : Bool) (source_system : String) :
    List String :=
  (contacts.filter (fun item =>
      item.source_system == source_system
        && is_valid_contact client now item fresh)).map (fun item => item.value)

/-- The `for source_system in self._source_system_priorities` loop of
`get_mobile_numbers`: skip systems without a valid affiliation; return
the valid contacts of the first system that has one (even when that
list is empty); fall off the end (Python returns `None`) otherwise. -/
def get_mobile_numbers_loop (client : CerebrumClient) (now : Int)
    (contacts : List Contact) (affiliations : List Affiliation)
    (fresh : Bool) : List String → Option (List String)
  | [] => none
  | source_system :: rest =>
    if ¬ person_has_affiliation_from client now affiliations source_system then
      get_mobile_numbers_loop client now contacts affiliations fresh rest
    else
      some (contactsFrom client now contacts fresh source_system)

/-- `CerebrumClient.get_mobile_numbers(person_id, username)`:

```
contacts = self._get_person_contacts(person_id)
fresh = (self._account_is_fresh(username) or
         self._person_is_fresh(person_id))
if not self._source_system_priorities:
    return [item["value"] for item in contacts
            if self.is_valid_contact(item, fresh_entity=fresh) and
            self._person_has_affiliation_from(
                person_id, item['source_system'])]
for source_system in self._source_system_priorities:
    if not self._person_has_affiliation_from(person_id, source_system):
        continue
    return [item["value"] for item in contacts
            if item['source_system'] == source_system and
            self.is_valid_contact(item, fresh_entity=fresh)]
```

The remote facts are the parameters `contacts`, `affiliations`,
`created_at` (person info) and `traits` (account traits). -/
def get_mobile_numbers (client : CerebrumClient) (now : Int)
    (contacts : List Contact) (affiliations : List Affiliation)
    (created_at : Option Int) (traits : List Trait) :
    Option (List String) :=
  let fresh := account_is_fresh client now traits
    || person_is_fresh client now created_at
  if client.source_system_priorities = [] then
    some ((contacts.filter (fun item =>
        is_valid_contact client now item fresh
          && person_has_affiliation_from client now affiliations
               item.source_system)).map (fun item => item.value))
  else
    get_mobile_numbers_loop client now contacts affiliations fresh
      client.source_system_priorities

/-- `CerebrumClient._account_is_quarantined(username)`:
`any(x.get('type') for x in quarantines if x.get('type') not in
self._accepted_quarantines)` — a truthy quarantine type that is not in
the accepted list (an absent type is never in the list, but is falsy). -/
def account_is_quarantined (client : CerebrumClient)
    (quarantines : List Quarantine) : Bool :=
  quarantines.any (fun x =>
    !optInList x.qtype client.accepted_quarantines && truthyOpt x.qtype)

/-- `CerebrumClient._account_is_self_reserved(username)`: some trait is
`pasw_reserved` with `number == 1`. -/
def account_is_self_reserved (traits : List Trait) : Bool :=
  traits.any (fun t => t.trait == "pasw_reserved" && t.number == 1)

/-- `CerebrumClient.can_use_sms_service(person_id, username)`: the four
checks in source order, each raising `IdmClientException` with its
reason string; `True` when none fires.  The remote facts are `active`
(account info `active` flag), `quarantines`, `groups` (the account's
direct and indirect group memberships) and `traits`. -/
def can_use_sms_service (client : CerebrumClient) (active : Bool)
    (quarantines : List Quarantine) (groups : List String)
    (traits : List Trait) : Except String Bool :=
  if ¬ active then
    .error "inactive-account"
  else if account_is_quarantined client quarantines then
    .error "quarantined"
  else if groups.any (fun name => client.reserved_groups.contains name) then
    .error "reserved-by-group-membership"
  else if account_is_self_reserved traits then
    .error "reserved-by-self"
  else
    .ok true

/-! ## JWT capability tokens (`pofh/auth/token.py`)

Wall-clock time is an integer number of seconds (the JWT claims `iat`,
`nbf`, `exp` are numeric timestamps on the wire).  A UUID (`jti`) is an
abstract `Nat`; `str(uuid)` / `uuid.UUID(value)` is the identity codec
on it.  The `nbf`/`exp` attributes may hold either a `timedelta`
relative to `iat` or an absolute instant, exactly as in the source. -/

/-- A `datetime`-or-`timedelta` slot, as held by the private
`__nbf`/`__exp` attributes of `JWTAuthToken`. -/
inductive TimeSpec where
  /-- A `timedelta`, resolved relative to `iat` by the property getter. -/
  | rel (d : Int)
  /-- An absolute `datetime`. -/
  | abs (t : Int)
  deriving DecidableEq, Repr

/-- Resolve a `TimeSpec` against an `iat` instant (the `nbf`/`exp`
property getters: a `timedelta` is added to `self.iat`). -/
def TimeSpec.resolve (iat : Int) : TimeSpec → Int
  | .rel d => iat + d
  | .abs t => t

/-- `JWTAuthToken`: namespace and identity (both optional, parsed from
the compound `sub` claim), token id `jti`, optional issuer, issue time,
and the not-before / expiry slots. -/
structure JWTAuthToken where
  nspace : Option String
  identity : Option String
  jti : Nat
  iss : Option String
  iat : Int
  nbf : TimeSpec
  exp : TimeSpec
  deriving DecidableEq, Repr

/-- The resolved `nbf` property. -/
def JWTAuthToken.nbfTime (t : JWTAuthToken) : Int := t.nbf.resolve t.iat

/-- The resolved `exp` property. -/
def JWTAuthToken.expTime (t : JWTAuthToken) : Int := t.exp.resolve t.iat

/-- The `sub` property getter:
`'{!s}:{!s}'.format(self.namespace or '', self.identity or '')`. -/
def JWTAuthToken.sub (t : JWTAuthToken) : String :=
  (t.nspace.getD "") ++ ":" ++ (t.identity.getD "")

/-- The `sub` property setter: split on the *first* colon
(`value.split(':', 1)`); each part is popped with `l.pop(0) or None`,
so an empty part (or a missing second part) becomes `None`. -/
def subParse (value : String) : Option String × Option String :=
  let parts := splitFirst ':' value.toList
  (orNone (String.mk parts.1),
   match parts.2 with
   | none => none
   | some l => orNone (String.mk l))

/-- `JWTAuthToken.new(namespace, identity, issuer)` at instant `now`,
with a fresh UUID `jti` and the configured default offsets
(`DEFAULT_NBF`, `DEFAULT_EXP`, relative to `iat`). -/
def JWTAuthToken.new (nspace identity iss : Option String) (jti : Nat)
    (now dNbf dExp : Int) : JWTAuthToken :=
  { nspace := nspace
    identity := identity
    jti := jti
    iss := iss
    iat := now
    nbf := .rel dNbf
    exp := .rel dExp }

/-- `JWTAuthToken.renew()`: set `nbf` to `utcnow() + DEFAULT_NBF` and
`exp` to `utcnow() + DEFAULT_EXP` (two successive `utcnow()` calls,
instants `now₁` and `now₂`). -/
def JWTAuthToken.renew (t : JWTAuthToken) (dNbf dExp now₁ now₂ : Int) :
    JWTAuthToken :=
  { t with nbf := .abs (now₁ + dNbf), exp := .abs (now₂ + dExp) }

/-- The JWT claim set built by `JWTAuthToken.get_payload()`; `iss` is
included only when truthy. -/
structure Payload where
  jti : Nat
  iat : Int
  nbf : Int
  exp : Int
  sub : String
  iss : Option String
  deriving DecidableEq, Repr

/-- `JWTAuthToken.get_payload()`: `jti`, `iat`, the resolved `nbf` and
`exp`, the compound `sub`; `iss` only `if self.iss` (truthy). -/
def JWTAuthToken.get_payload (t : JWTAuthToken) : Payload :=
  { jti := t.jti
    iat := t.iat
    nbf := t.nbfTime
    exp := t.expTime
    sub := t.sub
    iss := if truthyOpt t.iss then t.iss else none }

/-- `JWTAuthToken.from_payload(payload)`: issuer from the payload, then
`iat`/`nbf`/`exp` (absolute timestamps through the property setters),
`sub` (parsed into namespace and identity) and `jti`. -/
def JWTAuthToken.from_payload (p : Payload) : JWTAuthToken :=
  { nspace := (subParse p.sub).1
    identity := (subParse p.sub).2
    jti := p.jti
    iss := p.iss
    iat := p.iat
    nbf := .abs p.nbf
    exp := .abs p.exp }

/-- Modelled from the spec: the external `jwt` library's signed wire
form.  The claim set is carried verbatim; the HMAC-SHA-512 signature is
stood in for by recording the signing secret (§4.1: "deterministic
signature over the claim set"). -/
structure SignedJWT where
  payload : Payload
  signedWith : String
  deriving DecidableEq, Repr

/-- `JWTAuthToken.jwt_encode(secret)`:
`jwt.encode(self.get_payload(), secret, algorithm=HS512)`. -/
def JWTAuthToken.jwt_encode (t : JWTAuthToken) (secret : String) :
    SignedJWT :=
  { payload := t.get_payload, signedWith := secret }

/-- Modelled from the spec: `JWTAuthToken.jwt_decode(value, secret,
leeway)` = `jwt.decode(value, secret, options=JWT_OPTIONS, ...)`
followed by `from_payload`.  The external `jwt.decode` verifies the
signature and that `now` lies within `[nbf - leeway, exp + leeway]`
(§4.1); the required claims are always present in a well-typed
`Payload`.  Failure is `InvalidTokenError`. -/
def JWTAuthToken.jwt_decode (w : SignedJWT) (secret : String)
    (leeway now : Int) : Except String JWTAuthToken :=
  if w.signedWith ≠ secret then
    .error "invalid-signature"
  else if now + leeway < w.payload.nbf then
    .error "immature-signature"
  else if w.payload.exp < now - leeway then
    .error "signature-expired"
  else
    .ok (JWTAuthToken.from_payload w.payload)

/-! ## Request gating (`pofh/auth/__init__.py`) -/

/-- The observable outcome of running a gated route: either the wrapped
view function is reached, or one of the error classes escapes. -/
inductive GateOutcome where
  /-- The request reached the wrapped view function. -/
  | handled
  /-- `Challenge` (an `Unauthorized`, HTTP 401, with WWW-Authenticate
  metadata) raised by `require_jwt`. -/
  | challenge
  /-- `Forbidden` (HTTP 403) raised by `require_jwt`. -/
  | forbidden
  /-- `AttributeError` escaping `_check_for_jwt`: the
  `except InvalidTokenError` branch calls `current_app.logger.debut`,
  which does not exist on a `logging.Logger`, so the branch aborts
  before reaching its `raise Forbidden(...)` line. -/
  | attributeError
  deriving DecidableEq, Repr

/-- `_get_auth_data(req)`: split the `Authorization` header (default
`""`) on the first space; pop scheme and credentials, mapping empty
parts to `None`. -/
def _get_auth_data (authHeader : Option String) :
    Option String × Option String :=
  let parts := splitFirst ' ' (authHeader.getD "").toList
  (orNone (String.mk parts.1),
   match parts.2 with
   | none => none
   | some l => orNone (String.mk l))

/-- Result of the `_check_for_jwt` before-request hook: either
`g.current_token` was set (`none` = no token presented), or an
exception escaped the hook. -/
inductive CheckResult where
  /-- The hook returned; `g.current_token` holds this value. -/
  | token (t : Option JWTAuthToken)
  /-- `AttributeError` from `current_app.logger.debut` in the
  `except InvalidTokenError` branch. -/
  | attrError
  deriving DecidableEq, Repr

/-- `_check_for_jwt()`: extract the Authorization data; no scheme or a
scheme other than `JWT_AUTH_SCHEME` leaves `g.current_token = None`;
otherwise decode the credentials.  `parse` models extraction of a
structurally well-formed JWT from the raw credential string
(`jwt.decode` raises `DecodeError ⊆ InvalidTokenError` on garbage, and
on missing credentials).  On `InvalidTokenError` the handler's logging
line `current_app.logger.debut(...)` raises `AttributeError`, so the
`raise Forbidden` that follows it is unreachable. -/
def _check_for_jwt (cfgScheme : String)
    (parse : String → Option SignedJWT) (secret : String)
    (leeway now : Int) (authHeader : Option String) : CheckResult :=
  match _get_auth_data authHeader with
  | (none, _) => .token none
  | (some scheme, data) =>
    if scheme ≠ cfgScheme then .token none
    else
      match data with
      | none => .attrError
      | some raw =>
        match parse raw with
        | none => .attrError
        | some w =>
          match JWTAuthToken.jwt_decode w secret leeway now with
          | .ok t => .token (some t)
          | .error _ => .attrError

/-- `require_jwt(namespaces)` around a view function: `Challenge` when
no token was presented; `Forbidden` when namespaces are required and
the token's namespace is not among them (a `None` namespace is never in
the list); otherwise the view runs.  `namespaces = []` models both
Python `None` and an empty list (both falsy). -/
def require_jwt (namespaces : List String)
    (current_token : Option JWTAuthToken) : GateOutcome :=
  match current_token with
  | none => .challenge
  | some t =>
    if namespaces ≠ [] && !optInList t.nspace namespaces then
      .forbidden
    else
      .handled

/-- A request to a namespace-gated route: the `_check_for_jwt`
before-request hook followed by the `require_jwt` decorator. -/
def gated_route (cfgScheme : String) (parse : String → Option SignedJWT)
    (secret : String) (leeway now : Int) (namespaces : List String)
    (authHeader : Option String) : GateOutcome :=
  match _check_for_jwt cfgScheme parse secret leeway now authHeader with
  | .attrError => .attributeError
  | .token current_token => require_jwt namespaces current_token

/-! ## Helper lemmas -/

/-- The store left behind by `verify_code` is the input store in every
branch of the handler. -/
theorem verify_code_snd (store : Store) (identity nonce : String) :
    (verify_code store identity nonce).2 = store := by
  unfold verify_code
  split
  · rfl
  · split <;> rfl

/-- Deleting a key removes it from the store. -/
theorem storeGet_storeDelete (store : Store) (name : String) :
    storeGet (storeDelete store name) name = none := by
  induction store with
  | nil => rfl
  | cons p rest ih =>
    by_cases h : p.1 = name
    · simpa [storeDelete, storeGet, h] using ih
    · simpa [storeDelete, storeGet, h] using ih

/-- After `m` consecutive calls the counter holds `m` (absent for
`m = 0`). -/
theorem ratelimitCounterAfter_eq (m : Nat) :
    ratelimitCounterAfter m = if m = 0 then none else some m := by
  induction m with
  | zero => rfl
  | succ k ih =>
    by_cases hk : k = 0 <;>
      simp [ratelimitCounterAfter, exponential_ratelimit_call, ih, hk]

/-- After `m + 1` consecutive calls the counter holds `m + 1`. -/
theorem ratelimitCounterAfter_succ (m : Nat) :
    ratelimitCounterAfter (m + 1) = some (m + 1) := by
  rw [ratelimitCounterAfter_eq]
  simp

/-- The priority loop of `get_mobile_numbers` returns the valid
contacts of the first listed source system with a valid affiliation. -/
theorem get_mobile_numbers_loop_eq_find (client : CerebrumClient)
    (now : Int) (contacts : List Contact)
    (affiliations : List Affiliation) (fresh : Bool)
    (l : List String) :
    get_mobile_numbers_loop client now contacts affiliations fresh l
      = (l.find? (person_has_affiliation_from client now affiliations)).map
          (contactsFrom client now contacts fresh) := by
  induction l with
  | nil => rfl
  | cons s rest ih =>
    by_cases h : person_has_affiliation_from client now affiliations s
    · simp [get_mobile_numbers_loop, h, List.find?_cons]
    · simp [get_mobile_numbers_loop, h, List.find?_cons, ih]

/-- Splitting at the first separator undoes appending around a
separator-free prefix. -/
theorem splitFirst_append (sep : Char) (a b : List Char) (h : sep ∉ a) :
    splitFirst sep (a ++ sep :: b) = (a, some b) := by
  induction a with
  | nil => simp [splitFirst]
  | cons c cs ih =>
    simp only [List.mem_cons, not_or] at h
    simp [splitFirst, Ne.symm h.1, ih h.2]

/-- The `sub` codec: parsing `"<ns>:<id>"` recovers the pair whenever
the namespace is colon-free and both parts are non-empty — the
identity may itself contain colons, since the split stops at the
*first* colon. -/
theorem subParse_append (ns id : String)
    (hns : (':' : Char) ∉ ns.data) (hns0 : ns ≠ "") (hid0 : id ≠ "") :
    subParse (ns ++ ":" ++ id) = (some ns, some id) := by
  unfold subParse
  have hdata : (ns ++ ":" ++ id).toList = ns.data ++ ':' :: id.data := by
    show (ns ++ ":" ++ id).data = _
    rw [String.data_append, String.data_append]
    simp [String]
  rw [hdata, splitFirst_append _ _ _ hns]
  simp only [orNone]
  have h1 : String.mk ns.data = ns := rfl
  have h2 : String.mk id.data = id := rfl
  rw [h1, h2, if_neg hns0, if_neg hid0]

/-! ## The claims -/

/-- C2 counterexample: starting from an absent key, the second
consecutive call is denied but installs a TTL of `1` second — computed
from the pre-increment count `1` — not the `4` seconds the claim
states. -/
theorem ratelimit_second_call_counterexample :
    exponential_ratelimit_call (ratelimitCounterAfter 1)
        = (false, 2, 1)
      ∧ (1 : Nat) ≠ 4 := by
  constructor
  · rfl
  · decide

/-- C2 (amended): a call that finds no counter sets it to `1` with TTL
`1` second and admits; a call that finds the counter at `c` increments
it to `c + 1`, sets TTL `c²` seconds — the *pre-increment* count
squared — and denies with `TooManyRequests`.  Hence in a consecutive
run, call `n` (`n ≥ 2`) sets TTL `(n − 1)²` seconds: the 2nd call sets
1 s, the 3rd 4 s, the 4th 9 s. -/
theorem ratelimit_exponential_penalty (n : Nat) (h : 2 ≤ n) :
    exponential_ratelimit_call none = (true, 1, 1)
      ∧ (∀ c : Nat, exponential_ratelimit_call (some c)
          = (false, c + 1, c ^ 2))
      ∧ exponential_ratelimit_call (ratelimitCounterAfter (n - 1))
          = (false, n, (n - 1) ^ 2) := by
  refine ⟨rfl, fun c => rfl, ?_⟩
  obtain ⟨m, rfl⟩ : ∃ m, n = m + 2 := ⟨n - 2, by omega⟩
  have hm : m + 2 - 1 = m + 1 := by omega
  rw [hm, ratelimitCounterAfter_succ]
  rfl

/-- C2 witness: the third consecutive call denies, leaves the counter
at `3`, and sets TTL `4` seconds. -/
theorem ratelimit_exponential_penalty_witness :
    exponential_ratelimit_call (ratelimitCounterAfter 2)
      = (false, 3, 4) :=
  (ratelimit_exponential_penalty 3 (by decide)).2.2

/-- C3 counterexample: after a successful `/sms/verify` with the
correct nonce, the stored nonce is still present and the very same
nonce verifies successfully a second time — nothing is deleted. -/
theorem verify_code_replay_counterexample :
    (verify_code (save_nonce [] "foo:+4791000000" "xw33fv")
        "foo:+4791000000" "xw33fv").1
        = .success "foo" "+4791000000"
      ∧ storeGet (verify_code (save_nonce [] "foo:+4791000000" "xw33fv")
          "foo:+4791000000" "xw33fv").2 "sms-nonce:foo:+4791000000"
        = some "xw33fv"
      ∧ (verify_code (verify_code (save_nonce [] "foo:+4791000000" "xw33fv")
          "foo:+4791000000" "xw33fv").2 "foo:+4791000000" "xw33fv").1
        = .success "foo" "+4791000000" := by
  refine ⟨by decide, by decide, by decide⟩

/-- C3 (amended): `verify_code` never touches the store — in
particular it does not call `clear_nonce` after a successful
verification, so a correct nonce remains stored and replays
successfully until its TTL expires.  (`clear_nonce` would remove it:
its result no longer matches; but no caller in the flow invokes it.) -/
theorem verify_code_does_not_clear (store : Store)
    (identity nonce : String)
    (h : check_nonce store identity nonce = true) :
    (verify_code store identity nonce).2 = store
      ∧ check_nonce (verify_code store identity nonce).2 identity nonce
          = true
      ∧ (verify_code (verify_code store identity nonce).2 identity nonce).1
          = (verify_code store identity nonce).1
      ∧ check_nonce (clear_nonce store identity) identity nonce = false := by
  refine ⟨verify_code_snd store identity nonce, ?_, ?_, ?_⟩
  · rw [verify_code_snd]; exact h
  · rw [verify_code_snd]
  · unfold check_nonce clear_nonce
    rw [storeGet_storeDelete]
    simp

/-- C3 witness for the amended claim, at a concrete store holding a
freshly issued nonce. -/
theorem verify_code_does_not_clear_witness :
    (verify_code (save_nonce [] "bar:+4790000000" "q2rt7p")
        "bar:+4790000000" "q2rt7p").2
        = save_nonce [] "bar:+4790000000" "q2rt7p"
      ∧ check_nonce (verify_code (save_nonce [] "bar:+4790000000" "q2rt7p")
          "bar:+4790000000" "q2rt7p").2 "bar:+4790000000" "q2rt7p"
        = true
      ∧ (verify_code (verify_code (save_nonce [] "bar:+4790000000" "q2rt7p")
          "bar:+4790000000" "q2rt7p").2 "bar:+4790000000" "q2rt7p").1
        = (verify_code (save_nonce [] "bar:+4790000000" "q2rt7p")
            "bar:+4790000000" "q2rt7p").1
      ∧ check_nonce (clear_nonce (save_nonce [] "bar:+4790000000" "q2rt7p")
          "bar:+4790000000") "bar:+4790000000" "q2rt7p" = false :=
  verify_code_does_not_clear (save_nonce [] "bar:+4790000000" "q2rt7p")
    "bar:+4790000000" "q2rt7p" (by decide)

/-- C1 counterexample: with priority list `[B, A]`, valid affiliations
from both `A` and `B`, and a single valid contact `num1` from `A` (and
none from `B`), the first system that has a valid affiliation *and* at
least one valid contact is `A` — but the code stops at `B`, the first
system with a valid affiliation, and returns the empty list instead of
`["num1"]`. -/
theorem get_mobile_numbers_priority_counterexample :
    get_mobile_numbers ⟨[⟨"A", "MOBILE", none⟩], 10, 0, ["B", "A"], [], []⟩
        0 [⟨"A", "MOBILE", "num1", none⟩] [⟨"A", none⟩, ⟨"B", none⟩] none []
      = some []
    ∧ person_has_affiliation_from
        ⟨[⟨"A", "MOBILE", none⟩], 10, 0, ["B", "A"], [], []⟩
        0 [⟨"A", none⟩, ⟨"B", none⟩] "B" = true
    ∧ contactsFrom ⟨[⟨"A", "MOBILE", none⟩], 10, 0, ["B", "A"], [], []⟩
        0 [⟨"A", "MOBILE", "num1", none⟩] false "B" = []
    ∧ person_has_affiliation_from
        ⟨[⟨"A", "MOBILE", none⟩], 10, 0, ["B", "A"], [], []⟩
        0 [⟨"A", none⟩, ⟨"B", none⟩] "A" = true
    ∧ contactsFrom ⟨[⟨"A", "MOBILE", none⟩], 10, 0, ["B", "A"], [], []⟩
        0 [⟨"A", "MOBILE", "num1", none⟩] false "A" = ["num1"]
    ∧ some ([] : List String) ≠ some ["num1"] := by
  refine ⟨by decide, by decide, by decide, by decide, by decide, by decide⟩

/-- C1 (amended): with a priority list configured, `get_mobile_numbers`
returns the valid contact values of the *first* source system in the
list that has a valid affiliation — whether or not that system yields
any valid contact (the result may be the empty list) — and `none` when
no listed system has a valid affiliation.  Contacts of other systems
are never merged in: every returned value belongs to a valid contact
record of the selected system. -/
theorem get_mobile_numbers_priority_scan (client : CerebrumClient)
    (now : Int) (contacts : List Contact)
    (affiliations : List Affiliation) (created_at : Option Int)
    (traits : List Trait)
    (hp : client.source_system_priorities ≠ []) :
    get_mobile_numbers client now contacts affiliations created_at traits
      = (client.source_system_priorities.find?
            (person_has_affiliation_from client now affiliations)).map
          (contactsFrom client now contacts
            (account_is_fresh client now traits
              || person_is_fresh client now created_at))
    ∧ ∀ s : String,
        client.source_system_priorities.find?
            (person_has_affiliation_from client now affiliations)
          = some s →
        ∀ v ∈ contactsFrom client now contacts
            (account_is_fresh client now traits
              || person_is_fresh client now created_at) s,
          ∃ item ∈ contacts, item.source_system = s ∧ item.value = v
            ∧ is_valid_contact client now item
                (account_is_fresh client now traits
                  || person_is_fresh client now created_at) = true := by
  constructor
  · unfold get_mobile_numbers
    rw [if_neg hp, get_mobile_numbers_loop_eq_find]
  · intro s _ v hv
    simp only [contactsFrom, List.mem_map, List.mem_filter,
      Bool.and_eq_true, beq_iff_eq] at hv
    obtain ⟨item, ⟨hmem, hsys, hvalid⟩, hval⟩ := hv
    exact ⟨item, hmem, hsys, hval, hvalid⟩

/-- C1 witness (the spec's ordering example): contacts `num1` from `A`
and `num2` from `B`, valid affiliations from both, priority `[B, A]` —
the result is exactly `["num2"]`. -/
theorem get_mobile_numbers_priority_scan_witness :
    get_mobile_numbers
        ⟨[⟨"A", "MOBILE", none⟩, ⟨"B", "MOBILE", none⟩], 10, 0,
          ["B", "A"], [], []⟩ 0
        [⟨"A", "MOBILE", "num1", none⟩, ⟨"B", "MOBILE", "num2", none⟩]
        [⟨"A", none⟩, ⟨"B", none⟩] none []
      = some ["num2"] := by
  rw [(get_mobile_numbers_priority_scan
      ⟨[⟨"A", "MOBILE", none⟩, ⟨"B", "MOBILE", none⟩], 10, 0,
        ["B", "A"], [], []⟩ 0
      [⟨"A", "MOBILE", "num1", none⟩, ⟨"B", "MOBILE", "num2", none⟩]
      [⟨"A", none⟩, ⟨"B", none⟩] none [] (by decide)).1]
  decide

/-- C4 counterexample: a request presenting an unparseable token under
the JWT scheme on a namespace-gated route is *not* rejected with the
Unauthorized challenge: the `except InvalidTokenError` branch of
`_check_for_jwt` aborts with `AttributeError` (its logging call
`current_app.logger.debut` does not exist; the `raise Forbidden` after
it — the outcome the repository's own test suite expects — is
unreachable). -/
theorem gated_route_invalid_token_counterexample :
    gated_route "JWT" (fun _ => none) "s3cret" 1 0 ["allow-verify-nonce"]
        (some "JWT garbage") = .attributeError
      ∧ GateOutcome.attributeError ≠ GateOutcome.challenge := by
  refine ⟨by decide, by decide⟩

/-- C4 (amended): on a namespace-gated route, a *missing* token — no
Authorization data, or a scheme other than the configured one — is
rejected with the Unauthorized challenge; but a *presented* token that
is unparseable or fails verification (e.g. expired beyond leeway) makes
the before-request hook raise `AttributeError` at its `logger.debut`
logging line (with `raise Forbidden` as the unreachable intent), so
such requests are never answered with the Unauthorized challenge. -/
theorem gated_route_missing_vs_presented (cfgScheme : String)
    (parse : String → Option SignedJWT) (secret : String)
    (leeway now : Int) (namespaces : List String)
    (header : Option String) :
    ((_get_auth_data header).1 = none →
        gated_route cfgScheme parse secret leeway now namespaces header
          = .challenge)
    ∧ (∀ scheme, (_get_auth_data header).1 = some scheme →
        scheme ≠ cfgScheme →
        gated_route cfgScheme parse secret leeway now namespaces header
          = .challenge)
    ∧ ((_get_auth_data header).1 = some cfgScheme →
        ((_get_auth_data header).2 = none
          ∨ (∃ raw, (_get_auth_data header).2 = some raw
              ∧ parse raw = none)
          ∨ (∃ raw w e, (_get_auth_data header).2 = some raw
              ∧ parse raw = some w
              ∧ JWTAuthToken.jwt_decode w secret leeway now = .error e)) →
        gated_route cfgScheme parse secret leeway now namespaces header
          = .attributeError)
    ∧ GateOutcome.attributeError ≠ GateOutcome.challenge := by
  unfold gated_route _check_for_jwt
  rcases hga : _get_auth_data header with ⟨sc, da⟩
  refine ⟨?_, ?_, ?_, by decide⟩
  · intro h1
    simp only at h1
    subst h1
    rfl
  · intro scheme h1 h2
    simp only at h1
    subst h1
    simp [h2, require_jwt]
  · intro h1 h2
    simp only at h1
    subst h1
    rcases h2 with h2 | ⟨raw, hraw, hparse⟩ | ⟨raw, w, e, hraw, hparse, hdec⟩
    · simp only at h2
      subst h2
      simp
    · simp only at hraw
      subst hraw
      simp [hparse]
    · simp only at hraw
      subst hraw
      simp [hparse, hdec]

/-- C4 witness for the amended claim: a request with no Authorization
header is challenged, and one presenting garbage under the JWT scheme
ends in the `AttributeError`, not the challenge. -/
theorem gated_route_missing_vs_presented_witness :
    gated_route "JWT" (fun _ => none) "s3cret" 1 0 ["allow-verify-nonce"]
        none = .challenge
      ∧ gated_route "JWT" (fun _ => none) "s3cret" 1 0
          ["allow-verify-nonce"] (some "JWT junk") = .attributeError :=
  ⟨(gated_route_missing_vs_presented "JWT" (fun _ => none) "s3cret" 1 0
      ["allow-verify-nonce"] none).1 (by decide),
   (gated_route_missing_vs_presented "JWT" (fun _ => none) "s3cret" 1 0
      ["allow-verify-nonce"] (some "JWT junk")).2.2.1 (by decide)
      (Or.inr (Or.inl ⟨"junk", by decide, rfl⟩))⟩

/-- C5: a request presenting a token that decodes successfully (valid
signature, inside its time window) but whose namespace is not among the
namespaces the handler requires is rejected with `Forbidden` — never
with the Unauthorized challenge. -/
theorem gated_route_wrong_namespace_forbidden (cfgScheme : String)
    (parse : String → Option SignedJWT) (secret : String)
    (leeway now : Int) (namespaces : List String)
    (header : Option String) (raw : String) (w : SignedJWT)
    (t : JWTAuthToken)
    (hauth : _get_auth_data header = (some cfgScheme, some raw))
    (hparse : parse raw = some w)
    (hdecode : JWTAuthToken.jwt_decode w secret leeway now = .ok t)
    (hreq : namespaces ≠ [])
    (hns : optInList t.nspace namespaces = false) :
    gated_route cfgScheme parse secret leeway now namespaces header
        = .forbidden
      ∧ gated_route cfgScheme parse secret leeway now namespaces header
        ≠ .challenge := by
  have hchk : _check_for_jwt cfgScheme parse secret leeway now header
      = .token (some t) := by
    unfold _check_for_jwt
    rw [hauth]
    simp [hparse, hdecode]
  constructor <;>
    · unfold gated_route
      rw [hchk]
      simp [require_jwt, hreq, hns]

/-- C5 witness: a token carrying namespace `identity-found` presented
to a route requiring `allow-set-password` is rejected with
`Forbidden`. -/
theorem gated_route_wrong_namespace_forbidden_witness :
    gated_route "JWT"
        (fun _ => some ⟨⟨7, 0, 0, 100, "identity-found:someone", none⟩,
          "s3cret"⟩)
        "s3cret" 1 10 ["allow-set-password"] (some "JWT xyz")
        = .forbidden
      ∧ gated_route "JWT"
          (fun _ => some ⟨⟨7, 0, 0, 100, "identity-found:someone", none⟩,
            "s3cret"⟩)
          "s3cret" 1 10 ["allow-set-password"] (some "JWT xyz")
        ≠ .challenge :=
  gated_route_wrong_namespace_forbidden "JWT"
    (fun _ => some ⟨⟨7, 0, 0, 100, "identity-found:someone", none⟩,
      "s3cret"⟩)
    "s3cret" 1 10 ["allow-set-password"] (some "JWT xyz") "xyz"
    ⟨⟨7, 0, 0, 100, "identity-found:someone", none⟩, "s3cret"⟩
    (JWTAuthToken.from_payload ⟨7, 0, 0, 100, "identity-found:someone", none⟩)
    (by decide) rfl rfl (by decide) (by decide)

/-- C6: `can_use_sms_service` evaluates its checks in the fixed source
order — inactive account, unacceptable quarantine, reserved-group
membership, self-reservation — the first failing check raising its
distinct reason, and returns `True` when none fails. -/
theorem can_use_sms_service_fixed_order (client : CerebrumClient)
    (active : Bool) (quarantines : List Quarantine)
    (groups : List String) (traits : List Trait) :
    (active = false →
        can_use_sms_service client active quarantines groups traits
          = .error "inactive-account")
      ∧ (active = true →
          account_is_quarantined client quarantines = true →
          can_use_sms_service client active quarantines groups traits
            = .error "quarantined")
      ∧ (active = true →
          account_is_quarantined client quarantines = false →
          groups.any (fun name => client.reserved_groups.contains name)
            = true →
          can_use_sms_service client active quarantines groups traits
            = .error "reserved-by-group-membership")
      ∧ (active = true →
          account_is_quarantined client quarantines = false →
          groups.any (fun name => client.reserved_groups.contains name)
            = false →
          account_is_self_reserved traits = true →
          can_use_sms_service client active quarantines groups traits
            = .error "reserved-by-self")
      ∧ (active = true →
          account_is_quarantined client quarantines = false →
          groups.any (fun name => client.reserved_groups.contains name)
            = false →
          account_is_self_reserved traits = false →
          can_use_sms_service client active quarantines groups traits
            = .ok true) := by
  refine ⟨?_, ?_, ?_, ?_, ?_⟩ <;>
    intros <;> simp_all [can_use_sms_service]

/-- C6 witness: an active account whose only quarantine is not in the
accepted list is denied with reason `quarantined`, even though it is
also a member of a reserved group. -/
theorem can_use_sms_service_fixed_order_witness :
    can_use_sms_service
        ⟨[], 10, 0, [], ["vacation"], ["reserved-grp"]⟩
        true [⟨some "slukket"⟩] ["reserved-grp"] []
      = .error "quarantined" :=
  (can_use_sms_service_fixed_order
      ⟨[], 10, 0, [], ["vacation"], ["reserved-grp"]⟩
      true [⟨some "slukket"⟩] ["reserved-grp"] []).2.1
    rfl (by decide)

/-- C7: decoding the encoding of a freshly minted token with the same
secret — at any verification instant inside the token's window extended
by the leeway — round-trips `jti`, namespace, identity and issuer
exactly, and yields `iat`/`nbf`/`exp` equal to the originals (`iat`,
`iat + DEFAULT_NBF`, `iat + DEFAULT_EXP`), hence a fortiori within the
verification leeway. -/
theorem token_encode_decode_roundtrip (ns id : String)
    (iss : Option String) (jti : Nat)
    (now dNbf dExp leeway now' : Int) (secret : String)
    (hns : (':' : Char) ∉ ns.data) (hns0 : ns ≠ "") (hid0 : id ≠ "")
    (hiss : iss ≠ some "")
    (hlo : now + dNbf ≤ now' + leeway)
    (hhi : now' - leeway ≤ now + dExp) :
    JWTAuthToken.jwt_decode
        ((JWTAuthToken.new (some ns) (some id) iss jti now dNbf
            dExp).jwt_encode secret)
        secret leeway now'
      = .ok { nspace := some ns, identity := some id, jti := jti,
              iss := iss, iat := now, nbf := .abs (now + dNbf),
              exp := .abs (now + dExp) } := by
  have hiss' : (if truthyOpt iss then iss else none) = iss := by
    match iss with
    | none => rfl
    | some s =>
      have hs : s ≠ "" := fun h => hiss (by rw [h])
      simp [truthyOpt, hs]
  unfold JWTAuthToken.jwt_decode JWTAuthToken.jwt_encode
  rw [if_neg (by simp),
    if_neg (by
      simp only [JWTAuthToken.get_payload, JWTAuthToken.nbfTime,
        JWTAuthToken.new, TimeSpec.resolve, not_lt]
      omega),
    if_neg (by
      simp only [JWTAuthToken.get_payload, JWTAuthToken.expTime,
        JWTAuthToken.new, TimeSpec.resolve, not_lt]
      omega)]
  unfold JWTAuthToken.from_payload JWTAuthToken.get_payload
  simp only [JWTAuthToken.nbfTime, JWTAuthToken.expTime,
    JWTAuthToken.new, TimeSpec.resolve, hiss', JWTAuthToken.sub,
    Option.getD_some, subParse_append ns id hns hns0 hid0]

/-- C7 witness: a token minted at `iat = 100` with offsets `0`/`3600`,
decoded at instant `101` with leeway `1`, round-trips all fields. -/
theorem token_encode_decode_roundtrip_witness :
    JWTAuthToken.jwt_decode
        ((JWTAuthToken.new (some "allow-set-password") (some "foo") none
            7 100 0 3600).jwt_encode "s3cret")
        "s3cret" 1 101
      = .ok { nspace := some "allow-set-password", identity := some "foo",
              jti := 7, iss := none, iat := 100, nbf := .abs (100 + 0),
              exp := .abs (100 + 3600) } :=
  token_encode_decode_roundtrip "allow-set-password" "foo" none 7
    100 0 3600 1 101 "s3cret" (by decide) (by decide) (by decide)
    (by decide) (by decide) (by decide)

/-- C9 counterexample: a token whose identity `a:b` contains a colon
(and whose namespace is colon-free) does *not* misparse: splitting the
compound subject `ns:a:b` on the first colon recovers exactly the
original namespace/identity pair. -/
theorem sub_colon_identity_counterexample :
    (':' : Char) ∈ ("a:b" : String).data
      ∧ subParse (JWTAuthToken.sub
          ⟨some "ns", some "a:b", 0, none, 0, .rel 0, .rel 0⟩)
        = (some "ns", some "a:b") := by
  refine ⟨by decide, by decide⟩

/-- C9 (amended): a colon inside the identity is harmless to the
subject codec itself: for any token whose namespace is colon-free and
non-empty and whose identity is non-empty — the identity may contain
any number of colons — parsing the serialized `"<ns>:<id>"` subject by
splitting on the first colon recovers the namespace/identity pair
exactly.  (Misparsing arises from a colon in the *namespace*, or from
empty parts, which decode to `None`; and downstream consumers such as
`verify_code` split the compound identity on *every* colon, so identity
components must still avoid unescaped colons there.) -/
theorem sub_roundtrip_colon_in_identity (t : JWTAuthToken)
    (ns id : String) (h1 : t.nspace = some ns) (h2 : t.identity = some id)
    (hns : (':' : Char) ∉ ns.data) (hns0 : ns ≠ "") (hid0 : id ≠ "") :
    subParse t.sub = (t.nspace, t.identity) := by
  rw [h1, h2]
  have hsub : t.sub = ns ++ ":" ++ id := by
    unfold JWTAuthToken.sub
    rw [h1, h2]
    rfl
  rw [hsub]
  exact subParse_append ns id hns hns0 hid0

/-- C9 witness: the `allow-verify-nonce` compound identity
`foo:+4791000000` (username and mobile joined by a colon) survives the
subject round trip intact. -/
theorem sub_roundtrip_colon_in_identity_witness :
    subParse (JWTAuthToken.sub
        ⟨some "allow-verify-nonce", some "foo:+4791000000", 3, none, 5,
          .rel 0, .rel 3⟩)
      = (some "allow-verify-nonce", some "foo:+4791000000") :=
  sub_roundtrip_colon_in_identity
    ⟨some "allow-verify-nonce", some "foo:+4791000000", 3, none, 5,
      .rel 0, .rel 3⟩
    "allow-verify-nonce" "foo:+4791000000" rfl rfl (by decide)
    (by decide) (by decide)

/-- C8: `renew` rewrites only the `nbf` and `exp` slots — to `now₁ +
DEFAULT_NBF` and `now₂ + DEFAULT_EXP` respectively — and preserves
`jti`, namespace, identity, `iat` and issuer. -/
theorem renew_frame (t : JWTAuthToken) (dNbf dExp now₁ now₂ : Int) :
    (t.renew dNbf dExp now₁ now₂).nspace = t.nspace
      ∧ (t.renew dNbf dExp now₁ now₂).identity = t.identity
      ∧ (t.renew dNbf dExp now₁ now₂).jti = t.jti
      ∧ (t.renew dNbf dExp now₁ now₂).iat = t.iat
      ∧ (t.renew dNbf dExp now₁ now₂).iss = t.iss
      ∧ (t.renew dNbf dExp now₁ now₂).nbfTime = now₁ + dNbf
      ∧ (t.renew dNbf dExp now₁ now₂).expTime = now₂ + dExp := by
  refine ⟨rfl, rfl, rfl, rfl, rfl, ?_, ?_⟩ <;>
    simp [JWTAuthToken.renew, JWTAuthToken.nbfTime, JWTAuthToken.expTime,
      TimeSpec.resolve]

/-- C10: a contact whose `(source_system, type)` pair matches a
configured contact type with a nonzero delay, but which carries no
`last_modified` value, is accepted as valid even for a non-fresh
entity: the minimum-age requirement is waived when the last-modified
date is absent. -/
theorem is_valid_contact_no_last_modified (client : CerebrumClient)
    (now : Int) (item : Contact) (ct : ContactType) (d : Int)
    (hmatch : (client.contact_types.filter (contactMatches item)).getLast?
        = some ct)
    (hdelay : ct.delay = some d) (hd : d ≠ 0)
    (hlm : item.last_modified = none) :
    is_valid_contact client now item false = true := by
  simp [is_valid_contact, hmatch, hdelay, hlm, hd]

/-- C10 witness: the sole configured type `(SAP, MOBILE)` has delay 7
days; a matching contact without `last_modified` is valid for a
non-fresh entity. -/
theorem is_valid_contact_no_last_modified_witness :
    is_valid_contact
        ⟨[⟨"SAP", "MOBILE", some 7⟩], 10, 0, [], [], []⟩ 100
        ⟨"SAP", "MOBILE", "+4791000000", none⟩ false
      = true :=
  is_valid_contact_no_last_modified
    ⟨[⟨"SAP", "MOBILE", some 7⟩], 10, 0, [], [], []⟩ 100
    ⟨"SAP", "MOBILE", "+4791000000", none⟩ ⟨"SAP", "MOBILE", some 7⟩ 7
    (by decide) rfl (by decide) rfl

end Pofh
